import Mathlib

/-!
Shallow embedding of the Nuxeo Drive controller
(`nuxeo-drive-client/nxdrive/controller.py`) and proofs about its
binding registry, pair-state store, pending queue, client cache and
URL/path helpers.

Conventions:
* Python unicode strings are Lean `String`s; the string primitives the
  controller uses (`startswith`, slicing, `replace`, `endswith`, `len`)
  are embedded through the underlying character list.
* Timestamps (`datetime.utcnow()`, `calendar.timegm(...)`) are integers
  (UTC epoch seconds); SQL `NULL` columns are `Option` fields.
* ORM queries are embedded as filters and sorts over in-memory tables;
  SQLite sorts `NULL` first on ascending keys, which is modelled by
  `WithBot` (`⊥` = `NULL`).
* Operations that commit to the store are state transformers on
  `Controller`; a Python exception propagating before `session.commit()`
  leaves the store unchanged, so such operations return the original
  state together with the error.
-/

namespace NxDrive

/-- Embedded Python unicode string. -/
abbrev Str := String

/-- Python `s.startswith(p)`: prefix test on the character list. -/
def strStartsWith (s p : Str) : Bool := decide (p.data <+: s.data)

/-- Python `s[n:]`: drop the first `n` characters. -/
def strDrop (s : Str) (n : Nat) : Str := ⟨s.data.drop n⟩

/-- Python `s.replace(old, new)` for one-character arguments
    (`path.replace(os.path.sep, u'/')`). -/
def strReplaceChar (s : Str) (a b : Char) : Str :=
  ⟨s.data.map (fun c => if c = a then b else c)⟩

/-- Python `s.endswith(c)` for a one-character suffix. -/
def strEndsWith (s : Str) (c : Char) : Bool := decide (s.data.getLast? = some c)

/-- Python `len(s)`. -/
def strLen (s : Str) : Nat := s.data.length

/-- Association-list lookup (Python `dict.get`; keys are unique in a
    Python dict, so first-match lookup is exact lookup). -/
def alistGet {K V : Type} [DecidableEq K] : List (K × V) → K → Option V
  | [], _ => none
  | kv :: rest, k => if kv.1 = k then some kv.2 else alistGet rest k

/-- Association-list update (Python `dict.__setitem__`). -/
def alistPut {K V : Type} [DecidableEq K] : List (K × V) → K → V → List (K × V)
  | [], k, v => [(k, v)]
  | kv :: rest, k, v =>
    if kv.1 = k then (k, v) :: rest else kv :: alistPut rest k v

/-- A `ServerBinding` row.  Modelled from the spec: the row class lives in
    `nxdrive/model.py` (not under `src/`); the spec gives its columns —
    local root folder (primary key), server URL (always ending in `/`),
    remote user, and the two credential columns. -/
structure ServerBinding where
  local_folder : Str
  server_url : Str
  remote_user : Str
  remote_password : Option Str := none
  remote_token : Option Str := none
deriving DecidableEq, Repr

/-- A `LastKnownState` row.  Modelled from the spec: the row class lives in
    `nxdrive/model.py` (not under `src/`); the spec lists the columns the
    controller reads (identity, parent links, names, folderish flag, the
    per-side and rolled-up states, and the error back-off timestamp). -/
structure LastKnownState where
  local_folder : Str
  local_path : Option Str := none
  remote_ref : Option Str := none
  local_parent_path : Option Str := none
  remote_parent_ref : Option Str := none
  local_name : Option Str := none
  remote_name : Option Str := none
  remote_parent_path : Option Str := none
  folderish : Bool := false
  local_state : Str := "unknown"
  remote_state : Str := "unknown"
  pair_state : Str := "unknown"
  last_sync_error_date : Option Int := none
deriving DecidableEq, Repr

/-- The `DeviceConfig` singleton row.  Modelled from the spec: the row class
    lives in `nxdrive/model.py` (not under `src/`); the spec lists the proxy
    columns and the stable `device_id`. -/
structure DeviceConfig where
  device_id : Str
  proxy_config : Str := "System"
  proxy_type : Option Str := none
  proxy_server : Option Str := none
  proxy_port : Option Str := none
  proxy_username : Option Str := none
  proxy_password : Str := ""
  proxy_authenticated : Bool := false
  proxy_exceptions : Option Str := none
deriving DecidableEq, Repr

/-- `ProxySettings` (controller.py): plain record handed to/from the UI. -/
structure ProxySettings where
  config : Str := "System"
  proxy_type : Option Str := none
  server : Option Str := none
  port : Option Str := none
  authenticated : Bool := false
  username : Option Str := none
  password : Str := ""
  exceptions : Option Str := none
deriving DecidableEq, Repr

/-- Cache key of the remote-client cache:
    `(server_url, remote_user, device_id)`. -/
abbrev CacheKey := Str × Str × Str

/-- A constructed `RemoteFileSystemClient`, identified by a construction
    counter (`clientId`: each call to the factory yields a fresh object)
    and the invalidation timestamp recorded when it was cached. -/
structure CachedClient where
  clientId : Nat
  stamp : Nat
deriving DecidableEq, Repr

/-- The mutable state owned by a `Controller`: the three stored tables,
    the global invalidation-timestamp map `_client_cache_timestamps`, the
    per-thread client caches (`self._local.remote_clients`), and the
    construction counter for client identity. -/
structure Controller where
  bindings : List ServerBinding := []
  states : List LastKnownState := []
  device_config : DeviceConfig
  client_cache_timestamps : List (CacheKey × Nat) := []
  thread_clients : List (Nat × List (CacheKey × CachedClient)) := []
  next_client_id : Nat := 0
deriving DecidableEq, Repr

/-- Error kinds raised by the embedded controller operations
    (`NotFound` from `nxdrive.client`, the `RuntimeError`s of
    `_binding_path` / `bind_server` / `get_server_binding`, and the
    `ValueError`s of `_normalize_url` / `set_proxy_settings`). -/
inductive OpError
  | notFound
  | ambiguousBinding
  | alreadyBound
  | notBound
  | invalidUrl
  | noToken
deriving DecidableEq, Repr

/-- `Controller.get_token`: look at the first server binding only; fall
    through to `None` when it holds no token. -/
def getToken (c : Controller) : Option Str :=
  match c.bindings with
  | [] => none
  | sb :: _ => if sb.remote_token ≠ none then sb.remote_token else none

/-- `Controller._normalize_url`: `None` or empty is rejected, otherwise a
    trailing `/` is appended when missing. -/
def normalizeUrl (url : Option Str) : Except OpError Str :=
  match url with
  | none => .error .invalidUrl
  | some u =>
    if u = "" then .error .invalidUrl
    else if ¬ strEndsWith u '/' then .ok (u ++ "/")
    else .ok u

/-- `Controller.get_server_binding`.  Folder arguments throughout are taken
    already canonical: `normalized_path` (nxdrive/utils.py, not under
    `src/`) is modelled from the spec as the identity on canonicalized
    absolute paths. -/
def getServerBinding (c : Controller) (local_folder : Str) : Option ServerBinding :=
  c.bindings.find? (fun sb => decide (sb.local_folder = local_folder))

/-- `Controller._binding_path`: exact binding match first, then the unique
    binding whose `local_folder + os.path.sep` is a prefix of the path. -/
def bindingPath (c : Controller) (sep : Char) (local_path : Str) :
    Except OpError (ServerBinding × Str) :=
  match getServerBinding c local_path with
  | some binding => .ok (binding, "/")
  | none =>
    match c.bindings.filter
        (fun sb => strStartsWith local_path (sb.local_folder ++ sep.toString)) with
    | [] => .error .notFound
    | [binding] =>
      .ok (binding,
        strReplaceChar (strDrop local_path (strLen binding.local_folder)) sep '/')
    | _ => .error .ambiguousBinding

/-- `Controller.invalidate_client_cache`: stamp every matching key of
    `_client_cache_timestamps` with the current UTC epoch second `now`
    (`calendar.timegm(datetime.utcnow().utctimetuple())`).  The trailing
    `refresh_proxies()` re-reads proxy settings and touches no stored
    field modelled here. -/
def invalidateClientCache (c : Controller) (server_url : Option Str) (now : Nat) :
    Controller :=
  { c with client_cache_timestamps :=
      c.client_cache_timestamps.map (fun kv =>
        match server_url with
        | none => (kv.1, now)
        | some u => if kv.1.1 = u then (kv.1, now) else kv) }

/-- `Controller.get_remote_fs_client` as executed by thread `thread`.  The
    factory call is modelled by minting a `CachedClient` with the fresh
    identity `next_client_id`.  Python 2 compares `int < None` as `False`,
    so a present thread-local client with a missing global timestamp is
    kept (that shape is unreachable anyway: building a client also seeds
    the timestamp map).  `make_raise` does not affect the cache. -/
def getRemoteFsClient (c : Controller) (thread : Nat) (sb : ServerBinding) :
    Controller × CachedClient :=
  let cache := (alistGet c.thread_clients thread).getD []
  let cache_key : CacheKey := (sb.server_url, sb.remote_user, c.device_config.device_id)
  let remote_client_cache := alistGet cache cache_key
  let client_cache_timestamp := alistGet c.client_cache_timestamps cache_key
  let stale : Bool :=
    match remote_client_cache, client_cache_timestamp with
    | none, _ => true
    | some rc, some t => rc.stamp < t
    | some _, none => false
  if stale then
    let stamp := client_cache_timestamp.getD 0
    let tombs :=
      if client_cache_timestamp = none then
        alistPut c.client_cache_timestamps cache_key 0
      else c.client_cache_timestamps
    let client : CachedClient := ⟨c.next_client_id, stamp⟩
    ({ c with
        client_cache_timestamps := tombs,
        thread_clients := alistPut c.thread_clients thread (alistPut cache cache_key client),
        next_client_id := c.next_client_id + 1 },
     client)
  else
    (c, remote_client_cache.getD ⟨0, 0⟩)

/-- `Controller.bind_server`.  External collaborators appear as arguments:
    `token` is what the probe document client's `request_token()` returned
    (`none` models a server without token support), `rootRef` the remote
    filesystem root reference read in the fresh-binding branch, and
    `thread` the calling thread (the branch goes through
    `get_remote_fs_client`).  `register_folder_link` and `os.makedirs`
    touch only the OS, not the store.  On a raised error nothing was
    committed, so the original state is returned with it. -/
def bindServer (c : Controller) (thread : Nat)
    (local_folder url username password : Str) (token : Option Str)
    (rootRef : Str) : Controller × Except OpError ServerBinding :=
  match normalizeUrl (some url) with
  | .error e => (c, .error e)
  | .ok server_url =>
    -- `if token is not None: password = None`
    let pw : Option Str := if token ≠ none then none else some password
    match getServerBinding c local_folder with
    | some server_binding =>
      if server_binding.remote_user ≠ username
          ∨ server_binding.server_url ≠ server_url then
        (c, .error .alreadyBound)
      else
        -- `if token is None and server_binding.remote_password != password`
        let sb1 :=
          if token = none ∧ server_binding.remote_password ≠ pw then
            { server_binding with remote_password := pw }
          else server_binding
        -- `if token is not None and server_binding.remote_token != token`
        let sb2 :=
          match token with
          | some t =>
            if sb1.remote_token ≠ some t then
              { sb1 with remote_token := some t, remote_password := none }
            else sb1
          | none => sb1
        let bindings2 := c.bindings.map
          (fun b => if b.local_folder = local_folder then sb2 else b)
        ({ c with bindings := bindings2 }, .ok sb2)
    | none =>
      let server_binding : ServerBinding :=
        { local_folder := local_folder, server_url := server_url,
          remote_user := username, remote_password := pw, remote_token := token }
      -- Toplevel state creation: `LocalClient(...).get_info(u'/')` and
      -- `get_remote_fs_client(...).get_filesystem_root_info()`; the row
      -- constructor lives in nxdrive/model.py (not under src/) and is
      -- modelled from the spec: `local_path = "/"`, both sides
      -- `synchronized`.
      let c1 := (getRemoteFsClient c thread server_binding).1
      let state : LastKnownState :=
        { local_folder := local_folder, local_path := some "/",
          remote_ref := some rootRef, folderish := true,
          local_state := "synchronized", remote_state := "synchronized",
          pair_state := "synchronized" }
      ({ c1 with bindings := c1.bindings ++ [server_binding],
                 states := c1.states ++ [state] },
       .ok server_binding)

/-- Outcome of the external `revoke_token()` call during unbind: it either
    succeeds, raises one of the closed set of network errors
    (`POSSIBLE_NETWORK_ERROR_TYPES` from nxdrive.synchronizer), or raises
    `Unauthorized`. -/
inductive RevokeOutcome
  | ok
  | networkError
  | unauthorized
deriving DecidableEq, Repr

/-- `Controller.unbind_server`: resolve the binding (or raise), best-effort
    revoke the token — the `except POSSIBLE_NETWORK_ERROR_TYPES` and
    `except Unauthorized` handlers swallow every failure of the closed
    set, so every `outcome` falls through — then invalidate the client
    cache for this `server_url`, delete the binding row (pair rows
    cascade, per the spec'd model) and commit. -/
def unbindServer (c : Controller) (local_folder : Str) (outcome : RevokeOutcome)
    (now : Nat) : Controller × Except OpError Unit :=
  match getServerBinding c local_folder with
  | none => (c, .error .notBound)
  | some binding =>
    match outcome with
    | .ok | .networkError | .unauthorized =>
      let c1 := invalidateClientCache c (some binding.server_url) now
      ({ c1 with
          bindings := c1.bindings.filter (fun b => decide (b ≠ binding)),
          states := c1.states.filter
            (fun s => decide (s.local_folder ≠ binding.local_folder)) },
       .ok ())

/-- `Controller.get_proxy_settings`: the stored ciphertext is decrypted
    with the token as secret; with no token the password comes back as the
    empty string.  `decrypt` (nxdrive/utils.py, not under `src/`) is an
    argument. -/
def getProxySettings (c : Controller) (decrypt : Str → Str → Str) : ProxySettings :=
  let dc := c.device_config
  let password : Str :=
    match getToken c with
    | some token => decrypt dc.proxy_password token
    | none => ""
  { config := dc.proxy_config, proxy_type := dc.proxy_type,
    server := dc.proxy_server, port := dc.proxy_port,
    authenticated := dc.proxy_authenticated, username := dc.proxy_username,
    password := password, exceptions := dc.proxy_exceptions }

/-- `Controller.set_proxy_settings`: raises `ValueError('No token!')` when
    `get_token()` is `None` (nothing is committed in that case), otherwise
    stores the fields with the password encrypted under the token, commits
    and invalidates the whole client cache.  `encrypt` is an argument. -/
def setProxySettings (c : Controller) (ps : ProxySettings)
    (encrypt : Str → Str → Str) (now : Nat) : Controller × Except OpError Unit :=
  match getToken c with
  | none => (c, .error .noToken)
  | some token =>
    let dc := { c.device_config with
      proxy_config := ps.config, proxy_type := ps.proxy_type,
      proxy_server := ps.server, proxy_port := ps.port,
      proxy_exceptions := ps.exceptions, proxy_authenticated := ps.authenticated,
      proxy_username := ps.username,
      proxy_password := encrypt ps.password token }
    (invalidateClientCache { c with device_config := dc } none now, .ok ())

/-- A nullable SQL text column as an ordered value: `NULL` (`⊥`) sorts
    first under SQLite ascending order; text compares lexicographically
    on its characters. -/
def optStr (o : Option Str) : WithBot (List Char) :=
  match o with
  | none => ⊥
  | some s => (s.data : WithBot (List Char))

/-- Sort key of the `ORDER BY` clause of `list_pending`:
    `remote_parent_path` asc, `remote_name` asc, `remote_ref` asc, then
    `local_path` asc (lexicographic). -/
def pendingKey (s : LastKnownState) :
    Lex (WithBot (List Char) ×
      Lex (WithBot (List Char) × Lex (WithBot (List Char) × WithBot (List Char)))) :=
  toLex (optStr s.remote_parent_path,
    toLex (optStr s.remote_name,
      toLex (optStr s.remote_ref, optStr s.local_path)))

/-- Row order produced by `list_pending`. -/
def pendingLE (a b : LastKnownState) : Prop := pendingKey a ≤ pendingKey b

instance : DecidableRel pendingLE :=
  fun a b => inferInstanceAs (Decidable (pendingKey a ≤ pendingKey b))

instance : IsTotal LastKnownState pendingLE :=
  ⟨fun a b => le_total (pendingKey a) (pendingKey b)⟩

instance : IsTrans LastKnownState pendingLE :=
  ⟨fun _ _ _ h1 h2 => le_trans h1 h2⟩

/-- The `WHERE` predicates of `list_pending`: non-synchronized pairs, the
    optional `local_folder` filter, and — when `ignore_in_error` is a
    positive duration — the error back-off mask
    `last_sync_error_date IS NULL OR last_sync_error_date < now − d`. -/
def pendingPred (local_folder : Option Str) (ignore_in_error : Option Int)
    (now : Int) (s : LastKnownState) : Bool :=
  decide (s.pair_state ≠ "synchronized")
  && (match local_folder with
      | none => true
      | some lf => decide (s.local_folder = lf))
  && (match ignore_in_error with
      | none => true
      | some d =>
        if 0 < d then
          match s.last_sync_error_date with
          | none => true
          | some e => decide (e < now - d)
        else true)

/-- `Controller.list_pending`: filter, `ORDER BY` (embedded as a sort by
    `pendingLE`), `LIMIT`.  `now` is `datetime.utcnow()` in epoch
    seconds. -/
def listPending (c : Controller) (limit : Nat) (local_folder : Option Str)
    (ignore_in_error : Option Int) (now : Int) : List LastKnownState :=
  (List.insertionSort pendingLE
    (c.states.filter (pendingPred local_folder ignore_in_error now))).take limit

/-- Sort key of the children query of `_pair_states_recursive`:
    `local_name` asc, then `remote_name` asc. -/
def childKey (s : LastKnownState) : Lex (WithBot (List Char) × WithBot (List Char)) :=
  toLex (optStr s.local_name, optStr s.remote_name)

/-- Children order of `_pair_states_recursive`. -/
def childLE (a b : LastKnownState) : Prop := childKey a ≤ childKey b

instance : DecidableRel childLE :=
  fun a b => inferInstanceAs (Decidable (childKey a ≤ childKey b))

instance : IsTotal LastKnownState childLE :=
  ⟨fun a b => le_total (childKey a) (childKey b)⟩

instance : IsTrans LastKnownState childLE :=
  ⟨fun _ _ _ h1 h2 => le_trans h1 h2⟩

/-- Failures of the recursive aggregation: the `ValueError` raised when a
    pair has neither `local_path` nor `remote_ref`, and fuel exhaustion
    (the embedding's recursion budget — the stored table is arbitrary
    data, so the recursion is fuelled; every theorem below evaluates with
    enough fuel). -/
inductive AggError
  | illegalPairState
  | outOfFuel
deriving DecidableEq, Repr

/-- The children `filter()` of `_pair_states_recursive` (besides the
    `local_folder` filter): `none` models the `ValueError` branch. -/
def childFilter (doc_pair : LastKnownState) : Option (LastKnownState → Bool) :=
  match doc_pair.local_path, doc_pair.remote_ref with
  | some lp, some rr =>
    some (fun s => decide (s.local_parent_path = some lp)
                || decide (s.remote_parent_ref = some rr))
  | some lp, none => some (fun s => decide (s.local_parent_path = some lp))
  | none, some rr => some (fun s => decide (s.remote_parent_ref = some rr))
  | none, none => none

/-- The roll-up loop at the end of `_pair_states_recursive`.  Note the
    unconditional `break`: only the FIRST collected descendant is
    examined, even though the comment above the loop says the folder
    stays synchronized only if ALL descendants are. -/
def aggregateState (own : Str) (results : List (LastKnownState × Str)) : Str :=
  match results with
  | [] => own
  | (_, sub_pair_state) :: _ =>
    if sub_pair_state ≠ "synchronized" then "children_modified" else own

/-- `Controller._pair_states_recursive`, processing a worklist of pairs at
    one level; each pair contributes its own (possibly rolled-up) state
    followed by its recursively collected descendants.  Structural
    recursion on `fuel` (both for descending into children and for
    walking the sibling list). -/
def pairStatesList : Nat → List LastKnownState → List LastKnownState →
    Except AggError (List (LastKnownState × Str))
  | 0, _, _ => .error .outOfFuel
  | _ + 1, _, [] => .ok []
  | fuel + 1, table, doc_pair :: rest =>
    let head :=
      if doc_pair.folderish = false then
        Except.ok [(doc_pair, doc_pair.pair_state)]
      else
        match childFilter doc_pair with
        | none => .error .illegalPairState
        | some f =>
          let children := List.insertionSort childLE
            (table.filter (fun s =>
              decide (s.local_folder = doc_pair.local_folder) && f s))
          match pairStatesList fuel table children with
          | .error e => .error e
          | .ok results =>
            .ok ((doc_pair, aggregateState doc_pair.pair_state results) :: results)
    match head, pairStatesList fuel table rest with
    | .ok a, .ok b => .ok (a ++ b)
    | .error e, _ => .error e
    | .ok _, .error e => .error e
  termination_by structural fuel _ _ => fuel

/-- `Controller._pair_states_recursive` on a single pair. -/
def pairStatesRecursive (fuel : Nat) (table : List LastKnownState)
    (doc_pair : LastKnownState) : Except AggError (List (LastKnownState × Str)) :=
  pairStatesList fuel table [doc_pair]

/-! ## Helper lemmas -/

theorem string_append_data (s t : Str) : (s ++ t).data = s.data ++ t.data :=
  rfl

theorem string_ne_of_data_ne {s t : Str} (h : s.data ≠ t.data) : s ≠ t :=
  fun hst => h (congrArg String.data hst)

/-- Stamping an association list (as `invalidate_client_cache` does) hits
    every present key whose URL component matches. -/
theorem alistGet_stamp_matching (m : List (CacheKey × Nat)) (u : Str) (now : Nat)
    (k : CacheKey) (hk : k.1 = u)
    (h : (alistGet m k).isSome) :
    alistGet (m.map (fun kv => if kv.1.1 = u then (kv.1, now) else kv)) k
      = some now := by
  induction m with
  | nil => simp [alistGet] at h
  | cons kv rest ih =>
    by_cases hkk : kv.1 = k
    · have hu : kv.1.1 = u := by rw [hkk]; exact hk
      simp [alistGet, hu, hkk, hk]
    · have htail : (alistGet rest k).isSome := by
        simpa [alistGet, hkk] using h
      by_cases hu : kv.1.1 = u
      · simp only [List.map_cons, if_pos hu, alistGet, if_neg hkk]
        exact ih htail
      · simp only [List.map_cons, if_neg hu, alistGet, if_neg hkk]
        exact ih htail

/-! ## Claim theorems -/

/-- C9: URL normalization: for every non-empty url `u` the normalized
    result ends with `/` and normalization is idempotent; a null or empty
    url fails with `InvalidUrl`. -/
theorem normalizeUrl_slash_and_idempotent (u : Str) (hu : u ≠ "") :
    (∃ v, normalizeUrl (some u) = .ok v ∧ strEndsWith v '/' = true
        ∧ normalizeUrl (some v) = .ok v)
    ∧ normalizeUrl none = .error .invalidUrl
    ∧ normalizeUrl (some "") = .error .invalidUrl := by
  refine ⟨?_, rfl, rfl⟩
  by_cases h : strEndsWith u '/' = true
  · exact ⟨u, by simp [normalizeUrl, hu, h], h, by simp [normalizeUrl, hu, h]⟩
  · refine ⟨u ++ "/", by simp [normalizeUrl, hu, h], ?_, ?_⟩
    · unfold strEndsWith
      rw [string_append_data]
      simp [List.getLast?_concat]
    · have hne : u ++ "/" ≠ "" := by
        apply string_ne_of_data_ne
        rw [string_append_data]
        simp
      have hend : strEndsWith (u ++ "/") '/' = true := by
        unfold strEndsWith
        rw [string_append_data]
        simp [List.getLast?_concat]
      simp [normalizeUrl, hne, hend]

/-- C9 witness. -/
theorem normalizeUrl_slash_and_idempotent_witness :
    (∃ v, normalizeUrl (some "https://srv/nuxeo") = .ok v
        ∧ strEndsWith v '/' = true
        ∧ normalizeUrl (some v) = .ok v)
    ∧ normalizeUrl none = .error .invalidUrl
    ∧ normalizeUrl (some "") = .error .invalidUrl :=
  normalizeUrl_slash_and_idempotent "https://srv/nuxeo" (by decide)

/-- C10: with no token available (`get_token()` returns `None`),
    `get_proxy_settings` still succeeds and returns a `ProxySettings`
    whose password is the empty string, regardless of the stored
    ciphertext, while `set_proxy_settings` fails with `NoToken` and
    leaves the store unchanged. -/
theorem proxy_password_asymmetry_without_token (c : Controller)
    (dec enc : Str → Str → Str) (ps : ProxySettings) (now : Nat)
    (h : getToken c = none) :
    (getProxySettings c dec).password = ""
    ∧ setProxySettings c ps enc now = (c, .error .noToken) := by
  constructor
  · simp [getProxySettings, h]
  · simp [setProxySettings, h]

/-- A store with one binding that has no token: `get_token()` is `None`
    although a ciphertext is stored in the device config. -/
def noTokenController : Controller :=
  { bindings := [{ local_folder := "/home/u/Drive",
                   server_url := "https://srv/nuxeo/", remote_user := "alice",
                   remote_password := some "pw", remote_token := none }],
    device_config := { device_id := "dev", proxy_password := "ciphertext" } }

/-- C10 witness. -/
theorem proxy_password_asymmetry_without_token_witness :
    (getProxySettings noTokenController (fun ct _ => ct)).password = ""
    ∧ setProxySettings noTokenController {} (fun p _ => p) 7
        = (noTokenController, .error .noToken) :=
  proxy_password_asymmetry_without_token noTokenController
    (fun ct _ => ct) (fun p _ => p) {} 7 rfl

/-- C6: when a binding already exists for the (canonical) local folder and
    the requested user or the normalized server URL differs from the
    stored one, `bind_server` fails with `AlreadyBound` and the store is
    left unchanged (the returned state is the original one; nothing was
    committed).  The URL comparison happens after normalization (step 3
    of the spec's algorithm precedes the step-6 check), so `nurl` is the
    normalized form of the `url` argument. -/
theorem bindServer_mismatch_already_bound (c : Controller) (thread : Nat)
    (local_folder url nurl username password rootRef : Str) (token : Option Str)
    (sb : ServerBinding)
    (hfind : getServerBinding c local_folder = some sb)
    (hnorm : normalizeUrl (some url) = .ok nurl)
    (hmis : sb.remote_user ≠ username ∨ sb.server_url ≠ nurl) :
    bindServer c thread local_folder url username password token rootRef
      = (c, .error .alreadyBound) := by
  unfold bindServer
  rw [hnorm, hfind]
  simp only
  rw [if_pos hmis]

/-- A store holding the S1 binding of the spec. -/
def s1Controller : Controller :=
  { bindings := [{ local_folder := "/home/u/Drive",
                   server_url := "https://srv/nuxeo/", remote_user := "alice",
                   remote_password := none, remote_token := some "T" }],
    device_config := { device_id := "dev" } }

/-- C6 witness (scenario S2: re-bind with mismatched user). -/
theorem bindServer_mismatch_already_bound_witness :
    bindServer s1Controller 0 "/home/u/Drive" "https://srv/nuxeo" "bob" "pw"
        (some "T") "root" = (s1Controller, .error .alreadyBound) :=
  bindServer_mismatch_already_bound s1Controller 0 "/home/u/Drive"
    "https://srv/nuxeo" "https://srv/nuxeo/" "bob" "pw" "root" (some "T")
    { local_folder := "/home/u/Drive", server_url := "https://srv/nuxeo/",
      remote_user := "alice", remote_password := none, remote_token := some "T" }
    rfl rfl (Or.inl (by decide))

/-- C8: for a binding holding a token, `unbind_server` completes
    successfully whatever `revoke_token()` does — a raised `NetworkError`
    or `Unauthorized` is swallowed — and on success the binding row is
    gone from the store and every client-cache invalidation stamp for
    that binding's `server_url` is set to the current time. -/
theorem unbindServer_swallows_errors (c : Controller) (local_folder : Str)
    (outcome : RevokeOutcome) (now : Nat) (b : ServerBinding)
    (hfind : getServerBinding c local_folder = some b)
    (_htok : b.remote_token ≠ none) :
    ∃ c', unbindServer c local_folder outcome now = (c', .ok ())
      ∧ b ∉ c'.bindings
      ∧ c'.client_cache_timestamps = c.client_cache_timestamps.map
          (fun kv => if kv.1.1 = b.server_url then (kv.1, now) else kv) := by
  refine ⟨{ invalidateClientCache c (some b.server_url) now with
      bindings := (invalidateClientCache c (some b.server_url) now).bindings.filter
        (fun x => decide (x ≠ b)),
      states := (invalidateClientCache c (some b.server_url) now).states.filter
        (fun s => decide (s.local_folder ≠ b.local_folder)) }, ?_, ?_, ?_⟩
  · unfold unbindServer
    rw [hfind]
    cases outcome <;> rfl
  · intro hmem
    rw [List.mem_filter] at hmem
    simp at hmem
  · rfl

/-- C8 witness (scenario S6: unbind swallows a network error). -/
theorem unbindServer_swallows_errors_witness :
    ∃ c', unbindServer s1Controller "/home/u/Drive" .networkError 42
        = (c', .ok ())
      ∧ ({ local_folder := "/home/u/Drive", server_url := "https://srv/nuxeo/",
           remote_user := "alice", remote_password := none,
           remote_token := some "T" } : ServerBinding) ∉ c'.bindings
      ∧ c'.client_cache_timestamps = s1Controller.client_cache_timestamps.map
          (fun kv => if kv.1.1 = "https://srv/nuxeo/" then (kv.1, 42) else kv) :=
  unbindServer_swallows_errors s1Controller "/home/u/Drive" .networkError 42
    { local_folder := "/home/u/Drive", server_url := "https://srv/nuxeo/",
      remote_user := "alice", remote_password := none, remote_token := some "T" }
    rfl (by decide)

/-- An empty store (no bindings, no states). -/
def emptyController : Controller :=
  { device_config := { device_id := "dev" } }

/-- The binding row produced by scenario S1 (first-time bind obtaining
    token `T`). -/
def s1Binding : ServerBinding :=
  { local_folder := "/home/u/Drive", server_url := "https://srv/nuxeo/",
    remote_user := "alice", remote_password := none, remote_token := some "T" }

/-- Re-bind trace, step 1: first-time bind obtaining token `T` — the
    stored row holds the token and a null password. -/
def rebindState1 : Controller :=
  (bindServer emptyController 0 "/home/u/Drive" "https://srv/nuxeo" "alice"
    "pw" (some "T") "root").1

/-- Re-bind trace, step 2: a re-bind during which `request_token()`
    returns `None` (server temporarily without token support).  The
    password-refresh branch stores the new password but nothing clears
    the already-stored token, leaving a row holding BOTH credentials. -/
def rebindState2 : Controller :=
  (bindServer rebindState1 0 "/home/u/Drive" "https://srv/nuxeo" "alice"
    "pw2" none "root").1

/-- Re-bind trace, step 3: a further re-bind whose probe obtains the SAME
    token `T` again. -/
def rebindResult : Controller × Except OpError ServerBinding :=
  bindServer rebindState2 0 "/home/u/Drive" "https://srv/nuxeo" "alice"
    "pw3" (some "T") "root"

/-- C3 counterexample: after the (bind, token-less re-bind) trace the
    stored row holds token `T` together with password `"pw2"`; the next
    successful `bind_server` whose probe returns that same token `T`
    skips the `remote_token != token` update branch, so the resulting
    row still has `remote_password = "pw2"` — non-null — although the
    probe returned a token.  The claim's `remote_password` conclusion
    fails, and both credential columns are non-null. -/
theorem bindServer_same_token_keeps_stale_password :
    rebindState2.bindings
      = [{ local_folder := "/home/u/Drive", server_url := "https://srv/nuxeo/",
           remote_user := "alice", remote_password := some "pw2",
           remote_token := some "T" }]
    ∧ rebindResult.2
      = .ok { local_folder := "/home/u/Drive", server_url := "https://srv/nuxeo/",
              remote_user := "alice", remote_password := some "pw2",
              remote_token := some "T" } := by
  exact ⟨rfl, rfl⟩

/-- C3 (amended): a successful `bind_server` whose probe `request_token()`
    returned a token leaves the resulting binding row with `remote_token`
    equal to that token; and `remote_password` is null — so exactly one
    credential column is non-null — provided the pre-existing binding for
    that folder (if any) did not already hold that same token alongside a
    non-null password (in that one reachable case the update branch is
    skipped and the stale password survives). -/
theorem bindServer_token_clears_password_amended (c : Controller) (thread : Nat)
    (local_folder url username password rootRef t : Str)
    (c' : Controller) (b : ServerBinding)
    (hpre : ∀ sb, getServerBinding c local_folder = some sb →
      sb.remote_token = some t → sb.remote_password = none)
    (hres : bindServer c thread local_folder url username password (some t) rootRef
      = (c', .ok b)) :
    b.remote_token = some t ∧ b.remote_password = none ∧ b ∈ c'.bindings := by
  unfold bindServer at hres
  cases hn : normalizeUrl (some url) with
  | error e =>
    rw [hn] at hres
    simp at hres
  | ok nurl =>
    rw [hn] at hres
    simp only at hres
    cases hf : getServerBinding c local_folder with
    | some sb =>
      rw [hf] at hres
      simp only at hres
      by_cases hm : sb.remote_user ≠ username ∨ sb.server_url ≠ nurl
      · rw [if_pos hm] at hres
        simp at hres
      · rw [if_neg hm] at hres
        simp only [Option.some_ne_none, ne_eq, not_true_eq_false, false_and,
          if_false, not_false_eq_true, if_true, reduceCtorEq] at hres
        have hmem : sb ∈ c.bindings := List.mem_of_find?_eq_some hf
        have hlf : sb.local_folder = local_folder := by
          have := List.find?_some hf
          exact of_decide_eq_true this
        by_cases ht : sb.remote_token = some t
        · rw [if_neg (by simp [ht])] at hres
          have hc' := congrArg Prod.fst hres
          have hb := congrArg Prod.snd hres
          simp only at hc' hb
          rw [Except.ok.injEq] at hb
          subst hb
          refine ⟨ht, hpre sb hf ht, ?_⟩
          rw [← hc']
          simp only
          refine List.mem_map.mpr ⟨sb, hmem, ?_⟩
          rw [if_pos hlf]
        · rw [if_pos (by simp [ht])] at hres
          have hc' := congrArg Prod.fst hres
          have hb := congrArg Prod.snd hres
          simp only at hc' hb
          rw [Except.ok.injEq] at hb
          subst hb
          refine ⟨rfl, rfl, ?_⟩
          rw [← hc']
          simp only
          refine List.mem_map.mpr ⟨sb, hmem, ?_⟩
          rw [if_pos hlf]
    | none =>
      rw [hf] at hres
      simp only [Option.some_ne_none, ne_eq, not_true_eq_false, false_and,
        if_false, not_false_eq_true, if_true, reduceCtorEq] at hres
      have hc' := congrArg Prod.fst hres
      have hb := congrArg Prod.snd hres
      simp only at hc' hb
      rw [Except.ok.injEq] at hb
      subst hb
      refine ⟨rfl, rfl, ?_⟩
      rw [← hc']
      simp only
      exact List.mem_append_right _ (List.mem_singleton.mpr rfl)

/-- C3 amended-claim witness (scenario S1: fresh bind on an empty store). -/
theorem bindServer_token_clears_password_amended_witness :
    s1Binding.remote_token = some "T" ∧ s1Binding.remote_password = none
    ∧ s1Binding ∈ (bindServer emptyController 0 "/home/u/Drive"
        "https://srv/nuxeo" "alice" "pw" (some "T") "root").1.bindings :=
  bindServer_token_clears_password_amended emptyController 0 "/home/u/Drive"
    "https://srv/nuxeo" "alice" "pw" "root" "T"
    (bindServer emptyController 0 "/home/u/Drive" "https://srv/nuxeo" "alice"
      "pw" (some "T") "root").1
    s1Binding (by intro sb hsb; simp [getServerBinding, emptyController] at hsb)
    rfl

/-- C7: `_binding_path` on a canonicalized absolute path: an exact
    `local_folder` match returns that binding with `"/"`; otherwise the
    unique binding whose `local_folder + os.path.sep` is a prefix of the
    path is returned with the folder stripped and separators turned into
    `/` (so the relative path starts with `/`); no match raises
    `NotFound`, several raise `AmbiguousBinding`. -/
theorem bindingPath_resolution (c : Controller) (sep : Char) (local_path : Str) :
    (∀ b, getServerBinding c local_path = some b →
        bindingPath c sep local_path = .ok (b, "/"))
    ∧ (getServerBinding c local_path = none →
        (c.bindings.filter
            (fun sb => strStartsWith local_path (sb.local_folder ++ sep.toString))
              = [] →
          bindingPath c sep local_path = .error .notFound)
        ∧ (∀ b, c.bindings.filter
              (fun sb => strStartsWith local_path (sb.local_folder ++ sep.toString))
                = [b] →
            bindingPath c sep local_path =
              .ok (b, strReplaceChar (strDrop local_path (strLen b.local_folder))
                      sep '/')
            ∧ strStartsWith
                (strReplaceChar (strDrop local_path (strLen b.local_folder)) sep '/')
                "/" = true)
        ∧ (∀ b1 b2 rest, c.bindings.filter
              (fun sb => strStartsWith local_path (sb.local_folder ++ sep.toString))
                = b1 :: b2 :: rest →
            bindingPath c sep local_path = .error .ambiguousBinding)) := by
  refine ⟨?_, fun hnone => ⟨?_, ?_, ?_⟩⟩
  · intro b hb
    unfold bindingPath
    rw [hb]
  · intro hnil
    unfold bindingPath
    rw [hnone, hnil]
  · intro b hone
    refine ⟨?_, ?_⟩
    · unfold bindingPath
      rw [hnone, hone]
    · have hbmem : b ∈ c.bindings.filter
          (fun sb => strStartsWith local_path (sb.local_folder ++ sep.toString)) := by
        rw [hone]
        exact List.mem_singleton.mpr rfl
      have hpred := (List.mem_filter.mp hbmem).2
      have hpre : (b.local_folder ++ sep.toString).data <+: local_path.data :=
        of_decide_eq_true hpred
      obtain ⟨tail, htail⟩ := hpre
      have hdata : (b.local_folder ++ sep.toString).data
          = b.local_folder.data ++ [sep] := rfl
      rw [hdata] at htail
      unfold strStartsWith strReplaceChar strDrop strLen
      rw [← htail, List.append_assoc, List.drop_left]
      simp only [List.map_cons, if_pos rfl, List.singleton_append]
      exact decide_eq_true ⟨List.map (fun ch => if ch = sep then '/' else ch) tail, rfl⟩
  · intro b1 b2 rest hmulti
    unfold bindingPath
    rw [hnone, hmulti]

/-- Two bindings for the prefix-resolution witness. -/
def twoBindingController : Controller :=
  { bindings :=
      [{ local_folder := "/home/u/Drive", server_url := "https://srv/nuxeo/",
         remote_user := "alice", remote_token := some "T" },
       { local_folder := "/home/u/Other", server_url := "https://other/nuxeo/",
         remote_user := "bob", remote_token := some "S" }],
    device_config := { device_id := "dev" } }

/-- C7 witness: resolving a file below the first binding. -/
theorem bindingPath_resolution_witness :
    bindingPath twoBindingController '/' "/home/u/Drive/docs/a.txt"
      = .ok ({ local_folder := "/home/u/Drive", server_url := "https://srv/nuxeo/",
               remote_user := "alice", remote_token := some "T" },
             strReplaceChar (strDrop "/home/u/Drive/docs/a.txt"
               (strLen "/home/u/Drive")) '/' '/')
    ∧ strStartsWith (strReplaceChar (strDrop "/home/u/Drive/docs/a.txt"
        (strLen "/home/u/Drive")) '/' '/') "/" = true :=
  ((bindingPath_resolution twoBindingController '/' "/home/u/Drive/docs/a.txt").2
    rfl).2.1
    { local_folder := "/home/u/Drive", server_url := "https://srv/nuxeo/",
      remote_user := "alice", remote_token := some "T" }
    (by rfl)

/-- The folderish pair used to exhibit the aggregation bug: its own
    `pair_state` is `synchronized`. -/
def aggFolder : LastKnownState :=
  { local_folder := "lf", local_path := some "/F", remote_ref := some "rF",
    local_parent_path := some "/", local_name := some "F",
    folderish := true, pair_state := "synchronized" }

/-- First child in `(local_name, remote_name)` order: synchronized. -/
def aggChildA : LastKnownState :=
  { local_folder := "lf", local_path := some "/F/a", remote_ref := some "rA",
    local_parent_path := some "/F", local_name := some "a",
    folderish := false, pair_state := "synchronized" }

/-- Second child: NOT synchronized. -/
def aggChildB : LastKnownState :=
  { local_folder := "lf", local_path := some "/F/b", remote_ref := some "rB",
    local_parent_path := some "/F", local_name := some "b",
    folderish := false, pair_state := "locally_modified" }

/-- The stored pair table for the aggregation bug input. -/
def aggTable : List LastKnownState := [aggFolder, aggChildA, aggChildB]

/-- C1: evaluating `_pair_states_recursive` on a folder whose FIRST child
    (in query order) is synchronized but whose second child is
    `locally_modified` yields the aggregated state `synchronized` for the
    folder — the loop `break`s after inspecting only the first collected
    descendant — although a collected descendant has
    `pair_state ≠ 'synchronized'`, so the documented roll-up to
    `children_modified` does not happen. -/
theorem pairStates_aggregation_misses_descendant :
    pairStatesRecursive 5 aggTable aggFolder =
      .ok [(aggFolder, "synchronized"), (aggChildA, "synchronized"),
           (aggChildB, "locally_modified")]
    ∧ aggChildB.pair_state ≠ "synchronized"
    ∧ aggFolder.folderish = true := by
  exact ⟨rfl, by decide, rfl⟩

/-- The S1 binding used for the cache-coherence trace. -/
def cacheBinding : ServerBinding :=
  { local_folder := "/home/u/Drive", server_url := "https://srv/nuxeo/",
    remote_user := "alice", remote_token := some "T" }

/-- Cache trace: fresh store with one binding. -/
def cacheState0 : Controller :=
  { bindings := [cacheBinding], device_config := { device_id := "dev" } }

/-- After a first `get_remote_fs_client` (builds client 0, stamp 0). -/
def cacheState1 : Controller := (getRemoteFsClient cacheState0 0 cacheBinding).1

/-- After `invalidate_client_cache(url)` at epoch second 100. -/
def cacheState2 : Controller :=
  invalidateClientCache cacheState1 (some "https://srv/nuxeo/") 100

/-- After the next `get_remote_fs_client` (rebuilds: client 1, stamp 100). -/
def cacheState3 : Controller := (getRemoteFsClient cacheState2 0 cacheBinding).1

/-- After a second `invalidate_client_cache(url)` within the same epoch
    second 100. -/
def cacheState4 : Controller :=
  invalidateClientCache cacheState3 (some "https://srv/nuxeo/") 100

/-- C2 counterexample: client 1 is constructed and cached before the
    second `invalidate_client_cache` call (it is what the get at
    `cacheState2` returned), yet the first `get_remote_fs_client` after
    that invalidation returns the very same cached client again — not a
    freshly constructed one (a fresh construction would carry
    `next_client_id = 2`).  The staleness test is the strict
    `timestamp < tombstone` on epoch seconds, so an invalidation in the
    same second as the construction is ineffective. -/
theorem invalidate_same_second_returns_cached_client :
    (getRemoteFsClient cacheState2 0 cacheBinding).2 = ⟨1, 100⟩
    ∧ (getRemoteFsClient cacheState4 0 cacheBinding).2 = ⟨1, 100⟩
    ∧ cacheState4.next_client_id = 2 := by
  exact ⟨rfl, rfl, rfl⟩

/-- C2 (amended): if the cached client of any thread was stamped strictly
    before the invalidation time `t`, then the next
    `get_remote_fs_client` for a binding with that URL, in that thread,
    constructs and returns a fresh client (identity `next_client_id`,
    stamped `t`) instead of the cached one. -/
theorem invalidate_strictly_newer_rebuilds (c : Controller) (u : Str) (t : Nat)
    (thread : Nat) (sb : ServerBinding) (rc : CachedClient) (t0 : Nat)
    (hurl : sb.server_url = u)
    (hcache : alistGet ((alistGet c.thread_clients thread).getD [])
        (sb.server_url, sb.remote_user, c.device_config.device_id) = some rc)
    (htomb : alistGet c.client_cache_timestamps
        (sb.server_url, sb.remote_user, c.device_config.device_id) = some t0)
    (hlt : rc.stamp < t) :
    (getRemoteFsClient (invalidateClientCache c (some u) t) thread sb).2
      = ⟨(invalidateClientCache c (some u) t).next_client_id, t⟩
    ∧ (getRemoteFsClient (invalidateClientCache c (some u) t) thread sb).2 ≠ rc := by
  have hkey : ((sb.server_url, sb.remote_user, c.device_config.device_id)
      : CacheKey).1 = u := hurl
  have htomb' : alistGet (invalidateClientCache c (some u) t).client_cache_timestamps
      (sb.server_url, sb.remote_user, c.device_config.device_id) = some t := by
    show alistGet (c.client_cache_timestamps.map
        (fun kv => if kv.1.1 = u then (kv.1, t) else kv)) _ = some t
    exact alistGet_stamp_matching _ u t _ hkey (by rw [htomb]; rfl)
  have hresult : (getRemoteFsClient (invalidateClientCache c (some u) t) thread sb).2
      = ⟨(invalidateClientCache c (some u) t).next_client_id, t⟩ := by
    unfold getRemoteFsClient
    simp only [show (invalidateClientCache c (some u) t).device_config
        = c.device_config from rfl,
      show (invalidateClientCache c (some u) t).thread_clients
        = c.thread_clients from rfl,
      hcache, htomb', Option.getD_some]
    rw [if_pos (decide_eq_true hlt)]
  refine ⟨hresult, ?_⟩
  rw [hresult]
  intro hcon
  have : t = rc.stamp := congrArg CachedClient.stamp hcon
  omega

/-- C2 amended-claim witness: the trace state `cacheState1` has client 0
    stamped 0 cached; invalidating at second 100 makes the next get
    return the fresh client 1. -/
theorem invalidate_strictly_newer_rebuilds_witness :
    (getRemoteFsClient (invalidateClientCache cacheState1
        (some "https://srv/nuxeo/") 100) 0 cacheBinding).2
      = ⟨(invalidateClientCache cacheState1 (some "https://srv/nuxeo/") 100).next_client_id,
         100⟩
    ∧ (getRemoteFsClient (invalidateClientCache cacheState1
        (some "https://srv/nuxeo/") 100) 0 cacheBinding).2 ≠ ⟨0, 0⟩ :=
  invalidate_strictly_newer_rebuilds cacheState1 "https://srv/nuxeo/" 100 0
    cacheBinding ⟨0, 0⟩ 0 rfl rfl rfl (by decide)

/-- Membership in `list_pending` when the `LIMIT` does not cut anything
    off: a row is returned iff it is stored and passes the `WHERE`
    predicates. -/
theorem listPending_mem_iff (c : Controller) (limit : Nat) (lf : Option Str)
    (err : Option Int) (now : Int) (P : LastKnownState)
    (hlim : c.states.length ≤ limit) :
    P ∈ listPending c limit lf err now ↔
      P ∈ c.states ∧ pendingPred lf err now P = true := by
  unfold listPending
  rw [List.take_of_length_le]
  · rw [(List.perm_insertionSort pendingLE _).mem_iff, List.mem_filter]
  · rw [(List.perm_insertionSort pendingLE _).length_eq]
    exact le_trans (List.length_filter_le _ _) hlim

/-- C5: with a positive back-off duration `d`, a stored non-synchronized
    pair is returned by `list_pending` (no folder filter, limit large
    enough) iff its `last_sync_error_date` is null or strictly earlier
    than `now − d`. -/
theorem listPending_error_backoff (c : Controller) (limit : Nat)
    (lf : Option Str) (d now : Int) (P : LastKnownState)
    (hd : 0 < d) (hmem : P ∈ c.states) (hns : P.pair_state ≠ "synchronized")
    (hlf : lf = none ∨ lf = some P.local_folder)
    (hlim : c.states.length ≤ limit) :
    P ∈ listPending c limit lf (some d) now ↔
      (P.last_sync_error_date = none
        ∨ ∃ e, P.last_sync_error_date = some e ∧ e < now - d) := by
  rw [listPending_mem_iff c limit lf (some d) now P hlim]
  unfold pendingPred
  rcases hlf with h | h
  · subst h
    cases he : P.last_sync_error_date with
    | none => simp [hmem, hns, hd, he]
    | some e => simp [hmem, hns, hd, he]
  · subst h
    cases he : P.last_sync_error_date with
    | none => simp [hmem, hns, hd, he]
    | some e => simp [hmem, hns, hd, he]

/-- Pair P of scenario S5: non-synchronized, error stamped at second 90
    (10 seconds before `now = 100`). -/
def backoffPair : LastKnownState :=
  { local_folder := "lf", local_path := some "/p", remote_ref := some "rp",
    pair_state := "locally_modified", last_sync_error_date := some 90 }

/-- Store holding only `backoffPair`. -/
def backoffController : Controller :=
  { states := [backoffPair], device_config := { device_id := "dev" } }

/-- C5 witness (scenario S5 with `ignore_in_error = 30`). -/
theorem listPending_error_backoff_witness :
    backoffPair ∈ listPending backoffController 10 none (some 30) 100 ↔
      (backoffPair.last_sync_error_date = none
        ∨ ∃ e, backoffPair.last_sync_error_date = some e ∧ e < (100 : Int) - 30) :=
  listPending_error_backoff backoffController 10 none 30 100 backoffPair
    (by decide) (List.mem_singleton.mpr rfl) (by decide) (Or.inl rfl) (by decide)

/-- Under equal `remote_parent_path`, the `list_pending` row order implies
    ascending `remote_name` (the second lexicographic component). -/
theorem pendingLE_remote_name_le {a b : LastKnownState} (h : pendingLE a b)
    (hpp : a.remote_parent_path = b.remote_parent_path) :
    optStr a.remote_name ≤ optStr b.remote_name := by
  unfold pendingLE pendingKey at h
  rcases (Prod.Lex.le_iff _ _).mp h with h1 | ⟨heq, h2⟩
  · rw [hpp] at h1
    exact absurd h1 (lt_irrefl _)
  · rcases (Prod.Lex.le_iff _ _).mp h2 with h3 | ⟨heq2, _⟩
    · exact le_of_lt h3
    · exact le_of_eq heq2

/-- C4: `list_pending` returns only non-synchronized rows, the returned
    sequence is sorted by (`remote_parent_path`, `remote_name`,
    `remote_ref`, `local_path`) ascending, and in particular any two
    returned rows R₁ before R₂ with equal `remote_parent_path` satisfy
    `remote_name(R₁) ≤ remote_name(R₂)`. -/
theorem listPending_pending_and_ordered (c : Controller) (limit : Nat)
    (lf : Option Str) (err : Option Int) (now : Int) :
    (∀ s ∈ listPending c limit lf err now, s.pair_state ≠ "synchronized")
    ∧ List.Sorted pendingLE (listPending c limit lf err now)
    ∧ (∀ r1 r2 : LastKnownState,
        [r1, r2].Sublist (listPending c limit lf err now) →
        r1.remote_parent_path = r2.remote_parent_path →
        optStr r1.remote_name ≤ optStr r2.remote_name) := by
  have hsorted : List.Sorted pendingLE (listPending c limit lf err now) := by
    unfold listPending
    exact List.Pairwise.sublist (List.take_sublist _ _)
      (List.sorted_insertionSort pendingLE _)
  refine ⟨?_, hsorted, ?_⟩
  · intro s hs
    unfold listPending at hs
    have hs2 := List.mem_of_mem_take hs
    have hs3 := (List.perm_insertionSort pendingLE _).mem_iff.mp hs2
    have hp := (List.mem_filter.mp hs3).2
    unfold pendingPred at hp
    simp only [Bool.and_eq_true, decide_eq_true_eq] at hp
    exact hp.1.1
  · intro r1 r2 hsub hpp
    have hpair : List.Pairwise pendingLE [r1, r2] :=
      List.Pairwise.sublist hsub hsorted
    have hle : pendingLE r1 r2 :=
      (List.pairwise_cons.mp hpair).1 r2 (List.mem_singleton.mpr rfl)
    exact pendingLE_remote_name_le hle hpp

/-- The three pending rows of scenario S4 (`/a`, `/a/x`, `/a/y`), stored
    out of order. -/
def pendingRowA : LastKnownState :=
  { local_folder := "lf", local_path := some "/a", remote_ref := some "ra",
    remote_parent_path := some "/", remote_name := some "a",
    pair_state := "remotely_created" }

/-- Row `/a/x` of scenario S4. -/
def pendingRowX : LastKnownState :=
  { local_folder := "lf", local_path := some "/a/x", remote_ref := some "rx",
    remote_parent_path := some "/a", remote_name := some "x",
    pair_state := "remotely_created" }

/-- Row `/a/y` of scenario S4. -/
def pendingRowY : LastKnownState :=
  { local_folder := "lf", local_path := some "/a/y", remote_ref := some "ry",
    remote_parent_path := some "/a", remote_name := some "y",
    pair_state := "remotely_created" }

/-- Store with the S4 rows out of order (`list_pending` returns them as
    `/a`, `/a/x`, `/a/y`). -/
def pendingController : Controller :=
  { states := [pendingRowY, pendingRowX, pendingRowA],
    device_config := { device_id := "dev" } }

/-- C4 witness: rows `/a/x` and `/a/y` share a `remote_parent_path` and
    come back in `remote_name` order. -/
theorem listPending_pending_and_ordered_witness :
    optStr pendingRowX.remote_name ≤ optStr pendingRowY.remote_name :=
  (listPending_pending_and_ordered pendingController 10 none none 0).2.2
    pendingRowX pendingRowY
    (show [pendingRowX, pendingRowY].Sublist
        (listPending pendingController 10 none none 0) from
      List.Sublist.cons pendingRowA (List.Sublist.refl [pendingRowX, pendingRowY]))
    rfl

end NxDrive
